import Mathlib

/-!
Verification of the core logic of `app.py` (nutriapp2 backend):
the health-metrics calculator `calculate_profile_data` and the
calorie extractor `extract_total_calories`, embedded shallowly.
Python floats are modelled by exact rationals; Python `round`
(banker's rounding, half to even) is modelled by `pyRound`;
a raised exception is modelled by `Except.error`.
-/

set_option autoImplicit false
set_option maxRecDepth 2000

deriving instance DecidableEq for Except

/-- Unicode-aware lowercasing of a character as Python `str.lower`
and `re.IGNORECASE` apply to the characters appearing in this
program: ASCII letters, plus the accented pair Í/í of the literal
label. Other characters are unchanged. -/
def foldChar (c : Char) : Char :=
  if c = 'Í' then 'í' else c.toLower

/-- Python `str.lower`, character by character. -/
def lowerString (s : String) : String :=
  String.mk (s.data.map foldChar)

/-- Python regex `\s` (whitespace class), ASCII range. -/
def isSpaceChar (c : Char) : Bool :=
  c = ' ' || c = '\t' || c = '\n' || c = '\r' || c.toNat = 11 || c.toNat = 12

/-- Python regex `\d` (decimal digit class), ASCII range. -/
def isDigitChar (c : Char) : Bool :=
  48 ≤ c.toNat && c.toNat ≤ 57

/-- Python `int` applied to the captured digit run. -/
def digitsVal (l : List Char) : ℤ :=
  l.foldl (fun n c => 10 * n + ((c.toNat : ℤ) - 48)) 0

/-- The literal label of the regex `Total Calorías:`, lower-cased
once so that the case-insensitive match folds only the subject. -/
def calorieLabel : List Char := "total calorías:".toList

/-- Case-insensitive test that the pattern `p` (already folded) is a
prefix of the subject `cs`. -/
def startsWithFold : List Char → List Char → Bool
  | [], _ => true
  | _ :: _, [] => false
  | p :: ps, c :: cs => foldChar c = p && startsWithFold ps cs

/-- One attempt of the regex `Total Calorías:\s*(\d+)` (with
`re.IGNORECASE`) at the start of `cs`: the label matched
case-insensitively, then greedy whitespace, then the captured
greedy digit run, which must be non-empty. `\s` and `\d` are
disjoint, so greedy matching without backtracking is exact. -/
def matchHere (cs : List Char) : Option ℤ :=
  if startsWithFold calorieLabel cs then
    let ds := ((cs.drop calorieLabel.length).dropWhile isSpaceChar).takeWhile isDigitChar
    if ds.isEmpty then none else some (digitsVal ds)
  else none

/-- `re.search` scanning: try the pattern at each position from the
left, return the first capture; the caller maps a miss to 0. -/
def scanChars : List Char → ℤ
  | [] => 0
  | c :: cs =>
    match matchHere (c :: cs) with
    | some n => n
    | none => scanChars cs

/-- `extract_total_calories` of `app.py` (lines 111-113):
`re.search(r"Total Calorías:\s*(\d+)", text, re.IGNORECASE)`,
returning the captured group as an integer, or 0 on no match. -/
def extract_total_calories (text : String) : ℤ :=
  scanChars text.data

/-- Reference formulation written from the specification text: a
left-to-right scan over the suffixes of the text, returning the
value of the first suffix where the labelled pattern matches, and 0
when no suffix matches. -/
def extract_total_spec (text : String) : ℤ :=
  (text.data.tails.findSome? matchHere).getD 0

/-- The profile record handed to the calculator: the five physical
attributes, each possibly missing or null (`None`). -/
structure UserData where
  weight : Option ℚ
  height : Option ℚ
  age : Option ℚ
  gender : Option String
  activity_level : Option String

/-- The dictionary returned by `calculate_profile_data`. -/
structure ProfileData where
  imc : Option ℚ
  tdee : Option ℤ
  imc_recommendation : String
deriving DecidableEq

/-- Python `round(x)`: nearest integer, ties to even. -/
def pyRound (x : ℚ) : ℤ :=
  if x - ⌊x⌋ < 1 / 2 then ⌊x⌋
  else if 1 / 2 < x - ⌊x⌋ then ⌊x⌋ + 1
  else if ⌊x⌋ % 2 = 0 then ⌊x⌋ else ⌊x⌋ + 1

/-- Python `round(x, 2)`: nearest multiple of 1/100, ties to even. -/
def round2 (x : ℚ) : ℚ :=
  (pyRound (100 * x) : ℚ) / 100

/-- Lines 82-85 of `app.py`: the Mifflin-St Jeor basal metabolic
rate, branching on `gender.lower() == 'masculino'`. -/
def bmr_of (weight height age : ℚ) (gender : String) : ℚ :=
  if lowerString gender = "masculino" then
    10 * weight + 6.25 * height - 5 * age + 5
  else
    10 * weight + 6.25 * height - 5 * age - 161

/-- Line 86 of `app.py`: the activity-multiplier dictionary. -/
def activity_multipliers : List (String × ℚ) :=
  [("sedentario", 1.2), ("ligero", 1.375), ("moderado", 1.55),
   ("activo", 1.725), ("muy activo", 1.9)]

/-- Line 87 of `app.py`: dictionary `.get` with default 1.2 on the
lower-cased activity level. -/
def activityMultiplier (activity_level : String) : ℚ :=
  (activity_multipliers.lookup (lowerString activity_level)).getD 1.2

/-- Lines 89-92 of `app.py`: the BMI category label. -/
def imc_category (imc : ℚ) : String :=
  if imc < 18.5 then "Bajo peso"
  else if 18.5 ≤ imc ∧ imc < 25 then "Peso saludable"
  else if 25 ≤ imc ∧ imc < 30 then "Sobrepeso"
  else "Obesidad"

/-- Line 79 of `app.py`: the sentinel returned for an incomplete
profile. -/
def profileIncomplete : ProfileData :=
  ⟨none, none, "Completa tu perfil"⟩

/-- `calculate_profile_data` of `app.py` (lines 77-93). A Python
`ZeroDivisionError` from line 81 (when the squared height in metres
is zero) is modelled as `Except.error`. -/
def calculate_profile_data (u : UserData) : Except String ProfileData :=
  match u.weight, u.height, u.age, u.gender, u.activity_level with
  | some weight, some height, some age, some gender, some activity_level =>
    let height_m := height / 100
    if height_m ^ 2 = 0 then Except.error "ZeroDivisionError"
    else
      let imc := round2 (weight / height_m ^ 2)
      let tdee := pyRound (bmr_of weight height age gender *
        activityMultiplier activity_level)
      Except.ok ⟨some imc, some tdee, imc_category imc⟩
  | _, _, _, _, _ => Except.ok profileIncomplete

/-! Helper lemmas shared by the claims. -/

/-- The scan of `re.search` agrees with the spec formulation: first
matching suffix, left to right, default 0. -/
theorem scanChars_eq_tails (cs : List Char) :
    scanChars cs = (cs.tails.findSome? matchHere).getD 0 := by
  induction cs with
  | nil => rfl
  | cons c cs ih =>
    rw [scanChars, List.tails_cons, List.findSome?_cons]
    cases h : matchHere (c :: cs) with
    | some n => rfl
    | none => simpa using ih

theorem digits_foldl_nonneg (l : List Char) (acc : ℤ) (hacc : 0 ≤ acc)
    (hl : ∀ c ∈ l, isDigitChar c = true) :
    0 ≤ l.foldl (fun n c => 10 * n + ((c.toNat : ℤ) - 48)) acc := by
  induction l generalizing acc with
  | nil => simpa using hacc
  | cons c cs ih =>
    have hc : isDigitChar c = true := hl c (List.mem_cons_self c cs)
    have h48 : (48 : ℤ) ≤ (c.toNat : ℤ) := by
      have := (Bool.and_eq_true _ _).mp hc |>.1
      have h := Nat.le_of_ble_eq_true (by simpa [isDigitChar] using this)
      exact_mod_cast h
    refine List.foldl_cons _ _ ▸ ih (10 * acc + ((c.toNat : ℤ) - 48)) ?_
      (fun d hd => hl d (List.mem_cons_of_mem c hd))
    have : (0 : ℤ) ≤ 10 * acc := by linarith
    linarith

theorem digitsVal_nonneg (l : List Char)
    (hl : ∀ c ∈ l, isDigitChar c = true) : 0 ≤ digitsVal l :=
  digits_foldl_nonneg l 0 le_rfl hl

theorem matchHere_nonneg (cs : List Char) (n : ℤ)
    (h : matchHere cs = some n) : 0 ≤ n := by
  unfold matchHere at h
  by_cases h1 : startsWithFold calorieLabel cs = true
  · rw [if_pos h1] at h
    dsimp only at h
    by_cases h2 : (((cs.drop calorieLabel.length).dropWhile isSpaceChar).takeWhile
        isDigitChar).isEmpty = true
    · rw [if_pos h2] at h
      exact absurd h (by simp)
    · rw [if_neg h2, Option.some_inj] at h
      rw [← h]
      exact digitsVal_nonneg _ fun c hc => List.mem_takeWhile_imp hc
  · rw [if_neg h1] at h
    exact absurd h (by simp)

theorem scanChars_nonneg (cs : List Char) : 0 ≤ scanChars cs := by
  induction cs with
  | nil => exact le_rfl
  | cons c cs ih =>
    rw [scanChars]
    cases h : matchHere (c :: cs) with
    | some n => exact matchHere_nonneg _ n h
    | none => exact ih

theorem bmr_male_eval : bmr_of 70 175 30 "Masculino" = 1648.75 := by
  have hg : lowerString "Masculino" = "masculino" := by decide
  unfold bmr_of
  rw [hg]
  norm_num

theorem bmr_female_eval : bmr_of 70 175 30 "Femenino" = 1482.75 := by
  have hg : lowerString "Femenino" = "femenino" := by decide
  unfold bmr_of
  rw [hg, if_neg (by decide)]
  norm_num

theorem calc_male_eval :
    calculate_profile_data ⟨some 70, some 175, some 30, some "Masculino", some "moderado"⟩ =
      Except.ok ⟨some 22.86, some 2556, "Peso saludable"⟩ := by
  have hg : lowerString "Masculino" = "masculino" := by decide
  have hm : activityMultiplier "moderado" = 1.55 := rfl
  simp only [calculate_profile_data, hm]
  norm_num [round2, pyRound, bmr_of, imc_category, hg, Int.floor_eq_iff]

theorem calc_female_eval :
    calculate_profile_data ⟨some 70, some 175, some 30, some "Femenino", some "sedentario"⟩ =
      Except.ok ⟨some 22.86, some 1779, "Peso saludable"⟩ := by
  have hg : lowerString "Femenino" = "femenino" := by decide
  have hm : activityMultiplier "sedentario" = 1.2 := rfl
  have hne : ("femenino" = "masculino") = False := by decide
  simp only [calculate_profile_data, hm]
  rw [bmr_of, hg]
  simp only [hne, if_false]
  norm_num [round2, pyRound, imc_category, Int.floor_eq_iff]

/-! The claims. -/

/-- C1: `calculate_profile_data` returns the Incomplete sentinel
(imc and tdee `None`, recommendation "Completa tu perfil") if and
only if at least one of the five physical attributes is missing.
On a complete profile it never returns the sentinel (it returns
computed metrics, or raises on zero height), and on any profile
with a missing attribute it always returns the sentinel. -/
theorem claim_C1 (u : UserData) :
    calculate_profile_data u = Except.ok profileIncomplete ↔
      (u.weight = none ∨ u.height = none ∨ u.age = none ∨
        u.gender = none ∨ u.activity_level = none) := by
  obtain ⟨w, h, a, g, act⟩ := u
  cases w <;> cases h <;> cases a <;> cases g <;> cases act <;>
    simp only [calculate_profile_data, profileIncomplete] <;>
    simp_all
  split_ifs <;> simp

/-- C2: the extractor performs a case-insensitive left-to-right
search for the label "Total Calorías:" followed by optional
whitespace and a digit run, returns the first match as an integer,
and 0 when no suffix matches; together with the three concrete
evaluations of the claim. -/
theorem claim_C2 :
    (∀ text : String, extract_total_calories text = extract_total_spec text) ∧
    extract_total_calories "Total Calorías: 450\n" = 450 ∧
    extract_total_calories "no mention here" = 0 ∧
    extract_total_calories "totaL calorías:   12 kcal" = 12 :=
  ⟨fun text => scanChars_eq_tails text.data, by decide, by decide, by decide⟩

/-- C3: BMR follows the Mifflin-St Jeor formula, branching on a
case-insensitive comparison with the single male token
"masculino": that token gives the +5 male form, every other gender
value gives the -161 form. -/
theorem claim_C3 (w h a : ℚ) (g : String) :
    (lowerString g = "masculino" →
      bmr_of w h a g = 10 * w + 6.25 * h - 5 * a + 5) ∧
    (lowerString g ≠ "masculino" →
      bmr_of w h a g = 10 * w + 6.25 * h - 5 * a - 161) ∧
    bmr_of w h a "MASCULINO" = 10 * w + 6.25 * h - 5 * a + 5 ∧
    bmr_of w h a "Femenino" = 10 * w + 6.25 * h - 5 * a - 161 ∧
    bmr_of w h a "desconocido" = 10 * w + 6.25 * h - 5 * a - 161 := by
  refine ⟨fun hg => ?_, fun hg => ?_, ?_, ?_, ?_⟩
  · unfold bmr_of; rw [if_pos hg]
  · unfold bmr_of; rw [if_neg hg]
  · unfold bmr_of; rw [if_pos (by decide)]
  · unfold bmr_of; rw [if_neg (by decide)]
  · unfold bmr_of; rw [if_neg (by decide)]

theorem claim_C3_witness :
    bmr_of 70 175 30 "Masculino" = 10 * 70 + 6.25 * 175 - 5 * 30 + 5 :=
  (claim_C3 70 175 30 "Masculino").1 (by decide)

/-- C4: the activity multiplier is looked up case-insensitively in
the fixed five-entry table, any unknown level falls back to 1.2,
and for every complete profile with non-zero height the returned
TDEE is round(BMR x multiplier). -/
theorem claim_C4 (w h a : ℚ) (g act : String) (hh : h ≠ 0) :
    activityMultiplier "Sedentario" = 1.2 ∧
    activityMultiplier "LIGERO" = 1.375 ∧
    activityMultiplier "moderado" = 1.55 ∧
    activityMultiplier "Activo" = 1.725 ∧
    activityMultiplier "Muy Activo" = 1.9 ∧
    (lowerString act ∉ ["sedentario", "ligero", "moderado", "activo", "muy activo"] →
      activityMultiplier act = 1.2) ∧
    calculate_profile_data ⟨some w, some h, some a, some g, some act⟩ =
      Except.ok ⟨some (round2 (w / (h / 100) ^ 2)),
        some (pyRound (bmr_of w h a g * activityMultiplier act)),
        imc_category (round2 (w / (h / 100) ^ 2))⟩ := by
  refine ⟨rfl, rfl, rfl, rfl, rfl, fun hmem => ?_, ?_⟩
  · simp only [List.mem_cons, List.not_mem_nil, or_false, not_or] at hmem
    obtain ⟨h1, h2, h3, h4, h5⟩ := hmem
    have b1 : (lowerString act == "sedentario") = false := beq_eq_false_iff_ne.mpr h1
    have b2 : (lowerString act == "ligero") = false := beq_eq_false_iff_ne.mpr h2
    have b3 : (lowerString act == "moderado") = false := beq_eq_false_iff_ne.mpr h3
    have b4 : (lowerString act == "activo") = false := beq_eq_false_iff_ne.mpr h4
    have b5 : (lowerString act == "muy activo") = false := beq_eq_false_iff_ne.mpr h5
    simp [activityMultiplier, activity_multipliers, List.lookup, b1, b2, b3, b4, b5]
  · have hz : ¬ ((h / 100) ^ 2 = 0) :=
      pow_ne_zero 2 (div_ne_zero hh (by norm_num))
    simp only [calculate_profile_data]
    rw [if_neg hz]

theorem claim_C4_witness :
    calculate_profile_data ⟨some 70, some 175, some 30, some "Masculino", some "moderado"⟩ =
      Except.ok ⟨some (round2 (70 / ((175 : ℚ) / 100) ^ 2)),
        some (pyRound (bmr_of 70 175 30 "Masculino" * activityMultiplier "moderado")),
        imc_category (round2 (70 / ((175 : ℚ) / 100) ^ 2))⟩ :=
  (claim_C4 70 175 30 "Masculino" "moderado" (by norm_num)).2.2.2.2.2.2

/-- C5: the BMI category label is given by half-open intervals on
the rounded BMI, with the exact boundary behaviour of the claim at
18.49, 18.5, 24.99, 25, 29.99 and 30. -/
theorem claim_C5 (x : ℚ) :
    (x < 18.5 → imc_category x = "Bajo peso") ∧
    (18.5 ≤ x ∧ x < 25 → imc_category x = "Peso saludable") ∧
    (25 ≤ x ∧ x < 30 → imc_category x = "Sobrepeso") ∧
    (30 ≤ x → imc_category x = "Obesidad") ∧
    imc_category 18.49 = "Bajo peso" ∧
    imc_category 18.5 = "Peso saludable" ∧
    imc_category 24.99 = "Peso saludable" ∧
    imc_category 25 = "Sobrepeso" ∧
    imc_category 29.99 = "Sobrepeso" ∧
    imc_category 30 = "Obesidad" := by
  refine ⟨fun hx => ?_, fun hx => ?_, fun hx => ?_, fun hx => ?_,
    ?_, ?_, ?_, ?_, ?_, ?_⟩
  · unfold imc_category; rw [if_pos hx]
  · obtain ⟨hx1, hx2⟩ := hx
    unfold imc_category
    rw [if_neg (not_lt.mpr hx1), if_pos ⟨hx1, hx2⟩]
  · obtain ⟨hx1, hx2⟩ := hx
    have k1 : ¬ x < 18.5 := not_lt.mpr (by linarith)
    have k2 : ¬ (18.5 ≤ x ∧ x < 25) := by rintro ⟨_, hlt⟩; linarith
    unfold imc_category
    rw [if_neg k1, if_neg k2, if_pos ⟨hx1, hx2⟩]
  · have k1 : ¬ x < 18.5 := not_lt.mpr (by linarith)
    have k2 : ¬ (18.5 ≤ x ∧ x < 25) := by rintro ⟨_, hlt⟩; linarith
    have k3 : ¬ (25 ≤ x ∧ x < 30) := by rintro ⟨_, hlt⟩; linarith
    unfold imc_category
    rw [if_neg k1, if_neg k2, if_neg k3]
  · with_unfolding_all decide
  · with_unfolding_all decide
  · with_unfolding_all decide
  · with_unfolding_all decide
  · with_unfolding_all decide
  · with_unfolding_all decide

theorem claim_C5_witness : imc_category 22.86 = "Peso saludable" :=
  (claim_C5 22.86).2.1 ⟨by norm_num, by norm_num⟩

/-- C6 (amended): for the profile weight 70, height 175, age 30,
gender "Masculino", activity "moderado" the calculator returns
BMI 22.86 and category "Peso saludable", but the intermediate BMR
is 1648.75 (not 1683.75 as claimed) and the TDEE is
round(1648.75 x 1.55) = 2556 (not 2610). -/
theorem claim_C6 :
    calculate_profile_data ⟨some 70, some 175, some 30, some "Masculino", some "moderado"⟩ =
      Except.ok ⟨some 22.86, some 2556, "Peso saludable"⟩ ∧
    bmr_of 70 175 30 "Masculino" = 1648.75 ∧
    pyRound ((1648.75 : ℚ) * 1.55) = 2556 ∧
    round2 (70 / ((175 : ℚ) / 100) ^ 2) = 22.86 := by
  refine ⟨calc_male_eval, bmr_male_eval, ?_, ?_⟩
  · norm_num [pyRound, Int.floor_eq_iff]
  · norm_num [round2, pyRound, Int.floor_eq_iff]

/-- C6 counterexample: at the profile of the claim the BMR is not
1683.75 and the returned dictionary is not the claimed one with
TDEE 2610. -/
theorem claim_C6_counterexample :
    ¬ (bmr_of 70 175 30 "Masculino" = 1683.75 ∧
      calculate_profile_data ⟨some 70, some 175, some 30, some "Masculino", some "moderado"⟩ =
        Except.ok ⟨some 22.86, some 2610, "Peso saludable"⟩) := by
  rintro ⟨h1, _⟩
  rw [bmr_male_eval] at h1
  norm_num at h1

/-- C7 (amended): for the profile weight 70, height 175, age 30,
gender "Femenino", activity "sedentario" the calculator computes
BMR = 10*70 + 6.25*175 - 5*30 - 161 = 1482.75 (not 1517.75 as
claimed) and returns TDEE = round(1482.75 x 1.2) = 1779 (not
1821). -/
theorem claim_C7 :
    calculate_profile_data ⟨some 70, some 175, some 30, some "Femenino", some "sedentario"⟩ =
      Except.ok ⟨some 22.86, some 1779, "Peso saludable"⟩ ∧
    bmr_of 70 175 30 "Femenino" = 1482.75 ∧
    bmr_of 70 175 30 "Femenino" = 10 * 70 + 6.25 * 175 - 5 * 30 - 161 ∧
    pyRound ((1482.75 : ℚ) * 1.2) = 1779 := by
  refine ⟨calc_female_eval, bmr_female_eval, ?_, ?_⟩
  · rw [bmr_female_eval]; norm_num
  · norm_num [pyRound, Int.floor_eq_iff]

/-- C7 counterexample: at the profile of the claim the BMR is not
1517.75 and the returned TDEE is 1779, not 1821. -/
theorem claim_C7_counterexample :
    ¬ (bmr_of 70 175 30 "Femenino" = 1517.75) ∧
    calculate_profile_data ⟨some 70, some 175, some 30, some "Femenino", some "sedentario"⟩ ≠
      Except.ok ⟨some 22.86, some 1821, "Peso saludable"⟩ := by
  constructor
  · intro h1
    rw [bmr_female_eval] at h1
    norm_num at h1
  · intro h2
    rw [calc_female_eval] at h2
    simp only [Except.ok.injEq, ProfileData.mk.injEq, Option.some.injEq] at h2
    exact absurd h2.2.1 (by norm_num)

/-- C8: the extractor always returns a non-negative integer, and
the absence of any match anywhere in the text is a normal return
of 0, not an error. -/
theorem claim_C8 (text : String) :
    0 ≤ extract_total_calories text ∧
    (text.data.tails.findSome? matchHere = none →
      extract_total_calories text = 0) := by
  constructor
  · exact scanChars_nonneg text.data
  · intro hnone
    unfold extract_total_calories
    rw [scanChars_eq_tails, hnone]
    rfl

theorem claim_C8_witness :
    0 ≤ extract_total_calories "no mention here" ∧
    extract_total_calories "no mention here" = 0 :=
  ⟨(claim_C8 "no mention here").1, (claim_C8 "no mention here").2 (by decide)⟩

/-- C9 (amended): the calculator raises no error on any profile
that is incomplete or whose height is not zero; it is only a
complete profile with height 0 that raises a ZeroDivisionError
from the BMI division. -/
theorem claim_C9 (u : UserData)
    (hu : u.weight = none ∨ u.height = none ∨ u.age = none ∨
      u.gender = none ∨ u.activity_level = none ∨ u.height ≠ some 0) :
    ∃ pd, calculate_profile_data u = Except.ok pd := by
  obtain ⟨w, h, a, g, act⟩ := u
  cases w <;> cases h <;> cases a <;> cases g <;> cases act <;>
    try exact ⟨profileIncomplete, rfl⟩
  simp only [Option.some.injEq, reduceCtorEq, false_or, ne_eq] at hu
  have hz : ¬ (((_ : ℚ) / 100) ^ 2 = 0) :=
    pow_ne_zero 2 (div_ne_zero hu (by norm_num))
  simp only [calculate_profile_data]
  rw [if_neg hz]
  exact ⟨_, rfl⟩

theorem claim_C9_witness :
    ∃ pd, calculate_profile_data
      ⟨some 70, some 175, some 30, some "Masculino", some "moderado"⟩ = Except.ok pd :=
  claim_C9 _ (by simp)

/-- C9 counterexample: a complete profile with height 0 raises a
ZeroDivisionError rather than returning a result. -/
theorem claim_C9_counterexample :
    calculate_profile_data ⟨some 70, some 0, some 30, some "Masculino", some "moderado"⟩ =
      Except.error "ZeroDivisionError" := by
  simp only [calculate_profile_data]
  norm_num

/-- C10: the label search is not anchored at a word boundary: in
"Subtotal Calorías: 99" the label occurs only as the tail of
"Subtotal", yet the extractor returns 99 rather than 0. -/
theorem claim_C10 :
    extract_total_calories "Subtotal Calorías: 99" = 99 ∧
    (99 : ℤ) ≠ 0 :=
  ⟨by decide, by decide⟩
